import Mathlib

/-!
Verification of the battery ROI engine (roi-calculator.ts) and its sanity
checker (sanity-check.ts) of the battery-roi-app repository.

Modelling decisions, all from the source:
* Decimal.js values are modelled as exact rationals extended with the
  special values Infinity, -Infinity and NaN that decimal.js produces on
  division by zero and propagates through arithmetic (decimal.js never
  throws on any arithmetic operation).  The 20-significant-digit rounding
  of decimal.js and its signed zero are not modelled: finite arithmetic is
  exact, and a zero divisor is treated as positive zero.
* Number literals appearing in the source (0.6, 0.1, 1e-6, -1, 10, 5000,
  0.10, 0.25) are exact in double precision or are converted by decimal.js
  through their shortest decimal string, so they are modelled as the exact
  rationals they denote.
* `years` is a JS number used only as the bound of `for` loops running
  year = 1 .. years; it is modelled as a natural number, 0 standing for
  any non-positive bound.
* JS numbers inside runSanityCheck are modelled by the same extended
  rational type (double rounding in toNumber is not modelled); NaN
  comparison semantics (always false) are modelled exactly.
* The vestigial dead computation inside the IRR loop of the source
  (variables f, fPrime, cf recomputed per year and never consumed, lines
  287-293) has no observable effect (decimal.js raises no exception there)
  and is omitted.
* `new Decimal(-net_investment)` coerces the Decimal through its string
  value to a JS double before negating; this rounding is not modelled and
  the expression is taken as exact negation.
-/

/-- A decimal.js value: a finite decimal (modelled as an exact rational) or
one of the non-finite values Infinity, -Infinity, NaN that decimal.js
produces on division by zero and propagates through arithmetic. -/
inductive EDec where
  | num (q : ℚ)
  | inf
  | ninf
  | nan
deriving DecidableEq, Repr

namespace EDec

/-- decimal.js plus. -/
def add : EDec → EDec → EDec
  | num a, num b => num (a + b)
  | num _, inf => inf
  | num _, ninf => ninf
  | inf, num _ => inf
  | inf, inf => inf
  | inf, ninf => nan
  | ninf, num _ => ninf
  | ninf, inf => nan
  | ninf, ninf => ninf
  | _, _ => nan

/-- decimal.js minus. -/
def sub : EDec → EDec → EDec
  | num a, num b => num (a - b)
  | num _, inf => ninf
  | num _, ninf => inf
  | inf, num _ => inf
  | inf, inf => nan
  | inf, ninf => inf
  | ninf, num _ => ninf
  | ninf, inf => ninf
  | ninf, ninf => nan
  | _, _ => nan

/-- decimal.js times (0 times an infinity is NaN). -/
def mul : EDec → EDec → EDec
  | num a, num b => num (a * b)
  | num a, inf => if 0 < a then inf else if a < 0 then ninf else nan
  | num a, ninf => if 0 < a then ninf else if a < 0 then inf else nan
  | inf, num b => if 0 < b then inf else if b < 0 then ninf else nan
  | ninf, num b => if 0 < b then ninf else if b < 0 then inf else nan
  | inf, inf => inf
  | inf, ninf => ninf
  | ninf, inf => ninf
  | ninf, ninf => inf
  | _, _ => nan

/-- decimal.js dividedBy: division by zero gives a signed infinity
(NaN for 0/0) instead of throwing; a finite value over an infinity is 0. -/
def div : EDec → EDec → EDec
  | num a, num b =>
      if b = 0 then (if a = 0 then nan else if 0 < a then inf else ninf)
      else num (a / b)
  | num _, inf => num 0
  | num _, ninf => num 0
  | inf, num b => if 0 ≤ b then inf else ninf
  | ninf, num b => if 0 ≤ b then ninf else inf
  | _, _ => nan

/-- decimal.js absoluteValue. -/
def abs : EDec → EDec
  | num a => num |a|
  | inf => inf
  | ninf => inf
  | nan => nan

/-- decimal.js toPower with an integer exponent (the only exponents the
engine uses): exact powers on finite values, IEEE-style behaviour on the
non-finite ones, and 0 to a negative power giving Infinity. -/
def pow (x : EDec) (n : ℤ) : EDec :=
  if n = 0 then num 1
  else if 0 < n then
    match x with
    | num q => num (q ^ n.toNat)
    | inf => inf
    | ninf => if n % 2 = 0 then inf else ninf
    | nan => nan
  else
    match x with
    | num q => if q = 0 then inf else num (q ^ n)
    | inf => num 0
    | ninf => num 0
    | nan => nan

/-- decimal.js lessThan: any comparison involving NaN is false. -/
def ltB : EDec → EDec → Bool
  | num a, num b => decide (a < b)
  | num _, inf => true
  | num _, ninf => false
  | inf, _ => false
  | ninf, num _ => true
  | ninf, inf => true
  | _, _ => false

/-- decimal.js greaterThan. -/
def gtB (a b : EDec) : Bool := ltB b a

/-- decimal.js lessThanOrEqualTo, also the JS comparison x <= y on doubles:
any comparison involving NaN is false. -/
def leB : EDec → EDec → Bool
  | num a, num b => decide (a ≤ b)
  | num _, inf => true
  | num _, ninf => false
  | inf, inf => true
  | inf, _ => false
  | ninf, nan => false
  | ninf, _ => true
  | _, _ => false

/-- JS Math.max: NaN if either argument is NaN, else the larger argument. -/
def maxD : EDec → EDec → EDec
  | nan, _ => nan
  | _, nan => nan
  | a, b => if ltB a b then b else a

end EDec

/-- Inputs of the ROI calculation (interface ROIInputs of roi-calculator.ts).
Every Decimal field is modelled as an exact rational; monthly_peaks_kw is a
list of rationals of arbitrary length (the source performs no length
check); years is the natural-number loop bound. -/
structure ROIInputs where
  capex_cogs : ℚ
  price_ex_vat : ℚ
  grant_pct : ℚ
  capacity_kwh : ℚ
  inverter_kw : ℚ
  dod : ℚ
  efficiency : ℚ
  pv_cycles_per_year : ℚ
  arbitrage_cycles_per_year : ℚ
  annual_pv_kwh : ℚ
  purchase_price_sek_per_kwh : ℚ
  demand_price_sek_per_kw_month : ℚ
  monthly_peaks_kw : List ℚ
  spread_sek_per_kwh : ℚ
  o_and_m : ℚ
  wacc : ℚ
  degradation : ℚ
  years : ℕ

/-- usable = capacity_kwh.mul(dod).mul(efficiency). -/
def usable (i : ROIInputs) : ℚ := i.capacity_kwh * i.dod * i.efficiency

/-- pv_energy_per_year = usable.mul(pv_cycles_per_year). -/
def pv_energy_per_year (i : ROIInputs) : ℚ := usable i * i.pv_cycles_per_year

/-- pv_energy_capped = Decimal.min(pv_energy_per_year, annual_pv_kwh). -/
def pv_energy_capped (i : ROIInputs) : ℚ := min (pv_energy_per_year i) i.annual_pv_kwh

/-- pv_savings = pv_energy_capped.mul(purchase_price_sek_per_kwh). -/
def pv_savings (i : ROIInputs) : ℚ := pv_energy_capped i * i.purchase_price_sek_per_kwh

/-- cap_kw = inverter_kw.mul(new Decimal(0.6)). -/
def cap_kw (i : ROIInputs) : ℚ := i.inverter_kw * (6 / 10)

/-- The loop accumulating demand (peak-shaving) savings over the entries of
monthly_peaks_kw, however many are present: each month contributes
min(peak, cap_kw) times the demand price. -/
def demand_savings (i : ROIInputs) : ℚ :=
  i.monthly_peaks_kw.foldl
    (fun acc peak => acc + min peak (cap_kw i) * i.demand_price_sek_per_kw_month) 0

/-- arbitrage_savings = usable.mul(arbitrage_cycles_per_year).mul(spread_sek_per_kwh). -/
def arbitrage_savings (i : ROIInputs) : ℚ :=
  usable i * i.arbitrage_cycles_per_year * i.spread_sek_per_kwh

/-- annual_net = pv_savings.plus(demand_savings).plus(arbitrage_savings).minus(o_and_m). -/
def annual_net (i : ROIInputs) : ℚ :=
  pv_savings i + demand_savings i + arbitrage_savings i - i.o_and_m

/-- net_investment = capex_cogs.mul(new Decimal(1).minus(grant_pct)). -/
def net_investment (i : ROIInputs) : ℚ := i.capex_cogs * (1 - i.grant_pct)

/-- payback is net_investment.div(annual_net) when annual_net.gt(0), and the
null sentinel otherwise. -/
def payback (i : ROIInputs) : Option ℚ :=
  if 0 < annual_net i then some (net_investment i / annual_net i) else none

/-- One discounted cash flow of the NPV loop:
annual_net.mul((1 - degradation).pow(year - 1)).mul((1 + wacc).pow(-year)).
The discount factor lives in EDec because (1 + wacc).pow(-year) is an
infinity when wacc = -1. -/
def discountedNet (i : ROIInputs) (year : ℕ) : EDec :=
  (EDec.num (annual_net i * (1 - i.degradation) ^ (year - 1))).mul
    ((EDec.num (1 + i.wacc)).pow (-(year : ℤ)))

/-- npv: the sum of the discounted cash flows for year = 1 .. years, minus
the net investment. -/
def npv (i : ROIInputs) : EDec :=
  ((List.range i.years).foldl (fun acc y => acc.add (discountedNet i (y + 1))) (EDec.num 0)).sub
    (EDec.num (net_investment i))

/-- cf of the IRR loop: annual_net.mul((1 - degradation).pow(year - 1)),
always finite. -/
def irrCf (an dg : ℚ) (year : ℕ) : ℚ := an * (1 - dg) ^ (year - 1)

/-- One pass of the inner year loop of the IRR solver at the current guess
g: returns (npvGuess, derivative).  npvGuess starts at -net_investment and
accumulates cf.div(df) with df = (1 + g).pow(year); derivative starts at 0
and subtracts cf.mul(year).div(df.pow(2)).mul(1), exactly as the source
writes it (the source divides by df.pow(2), i.e. (1+g)^(2 year)). -/
def irrInner (an dg ninv : ℚ) (years : ℕ) (g : EDec) : EDec × EDec :=
  (List.range years).foldl
    (fun acc y =>
      let year := y + 1
      let cf : EDec := EDec.num (irrCf an dg year)
      let df : EDec := ((EDec.num 1).add g).pow (year : ℤ)
      (acc.1.add (cf.div df),
       acc.2.sub (((cf.mul (EDec.num (year : ℚ))).div (df.pow 2)).mul (EDec.num 1))))
    (EDec.num (-ninv), EDec.num 0)

/-- npvGuess at the current guess. -/
def irrNpvGuess (an dg ninv : ℚ) (years : ℕ) (g : EDec) : EDec :=
  (irrInner an dg ninv years g).1

/-- derivative at the current guess. -/
def irrDeriv (an dg ninv : ℚ) (years : ℕ) (g : EDec) : EDec :=
  (irrInner an dg ninv years g).2

/-- Newton update: newGuess = guess.minus(npvGuess.div(derivative)). -/
def irrStep (an dg ninv : ℚ) (years : ℕ) (g : EDec) : EDec :=
  g.sub ((irrNpvGuess an dg ninv years g).div (irrDeriv an dg ninv years g))

/-- The Newton-Raphson loop of the source: up to `fuel` iterations; at each
iteration compute newGuess and stop with it if
newGuess.minus(guess).abs().lt(1e-6); otherwise continue from newGuess;
none when the fuel is exhausted without convergence. -/
def irrLoop (an dg ninv : ℚ) (years : ℕ) : ℕ → EDec → Option EDec
  | 0, _ => none
  | fuel + 1, g =>
      let g1 := irrStep an dg ninv years g
      if ((g1.sub g).abs.ltB (EDec.num (1 / 1000000))) = true then some g1
      else irrLoop an dg ninv years fuel g1

/-- The raw result of the 50-iteration search seeded at 0.1. -/
def irrRaw (i : ROIInputs) : Option EDec :=
  irrLoop (annual_net i) i.degradation (net_investment i) i.years 50 (EDec.num (1 / 10))

/-- irr after the final bound: kept only if irr.gt(-1) and irr.lt(10),
null otherwise. -/
def irr (i : ROIInputs) : Option EDec :=
  match irrRaw i with
  | some v => if v.gtB (EDec.num (-1)) && v.ltB (EDec.num 10) then some v else none
  | none => none

/-- The details breakdown of ROIOutputs. -/
structure ROIDetails where
  pv_savings : ℚ
  demand_savings : ℚ
  arbitrage_savings : ℚ
  o_and_m : ℚ
  net_investment : ℚ
deriving DecidableEq, Repr

/-- ROIOutputs of roi-calculator.ts; payback and irr are null sentinels
modelled as none. -/
structure ROIOutputs where
  annual_net_sek : ℚ
  payback : Option ℚ
  npv : EDec
  irr : Option EDec
  details : ROIDetails
deriving DecidableEq, Repr

/-- calculateBatteryROI: assembles the returned record from the components
above (o_and_m is returned as o_and_m.clone(), an equal value). -/
def calculateBatteryROI (i : ROIInputs) : ROIOutputs :=
  ⟨annual_net i, payback i, npv i, irr i,
    ⟨pv_savings i, demand_savings i, arbitrage_savings i, i.o_and_m, net_investment i⟩⟩

/-- The deltas record of SanityResult. -/
structure SanityDeltas where
  annual : EDec
  payback : EDec
deriving DecidableEq, Repr

/-- SanityResult of sanity-check.ts; the expected and actual records, each
holding an annual and a payback number, are flattened into four fields. -/
structure SanityResult where
  pass : Bool
  deltas : SanityDeltas
  expectedAnnual : EDec
  expectedPayback : EDec
  actualAnnual : EDec
  actualPayback : EDec
  note : String
deriving DecidableEq, Repr

/-- runSanityCheck: recompute expected values with calculateBatteryROI, turn
a null expected payback into NaN, and compare
|actual - expected| against max(5000, expected_annual times 0.10) for the
annual net and against 0.25 for the payback; pass is the conjunction of the
two tolerance checks (a NaN comparison is false). -/
def runSanityCheck (inputs : ROIInputs) (actualAnnualNet actualPayback : EDec) : SanityResult :=
  let res := calculateBatteryROI inputs
  let expAnnual : EDec := EDec.num res.annual_net_sek
  let expPayback : EDec :=
    match res.payback with
    | some p => EDec.num p
    | none => EDec.nan
  let tolAnnual : EDec := EDec.maxD (EDec.num 5000) (expAnnual.mul (EDec.num (1 / 10)))
  let tolPayback : EDec := EDec.num (1 / 4)
  let deltaAnnual : EDec := (actualAnnualNet.sub expAnnual).abs
  let deltaPayback : EDec := (actualPayback.sub expPayback).abs
  let pass : Bool := deltaAnnual.leB tolAnnual && deltaPayback.leB tolPayback
  ⟨pass, ⟨deltaAnnual, deltaPayback⟩, expAnnual, expPayback, actualAnnualNet, actualPayback,
    if pass then "OK" else "Avvikelser over tolerans - kontrollera pris, peaks och exportcap."⟩

/-- The NPV-as-function-of-rate formula of the specification, the one the
returned IRR is substituted back into:
(sum over y = 1..years of annual_net (1 - degradation)^(y-1) / (1 + r)^y)
minus net_investment. -/
def npvAt (i : ROIInputs) (r : ℚ) : ℚ :=
  ((List.range i.years).foldl
      (fun acc y => acc + annual_net i * (1 - i.degradation) ^ y / (1 + r) ^ (y + 1)) 0)
    - net_investment i

/-- The reference inputs of the concrete scenario of the specification. -/
def refInputs : ROIInputs :=
  ⟨1264000, 0, 65 / 100, 261, 125, 9 / 10, 92 / 100, 220, 80, 38726, 156 / 100, 1148 / 10,
    [75, 75, 75, 75, 75, 75, 75, 75, 75, 75, 75, 75], 3 / 10, 5220, 8 / 100, 2 / 100, 12⟩

/-- Input used to exercise the IRR search: annual net 10^12, net investment
10^12 times 210/121 minus 1 SEK, two years, no degradation.  The first
Newton step from 0.1 is then below the 1e-6 convergence threshold while the
NPV at the returned rate stays near 1 SEK in magnitude. -/
def c5In : ROIInputs :=
  ⟨(210 * 10 ^ 12 - 121) / 121, 0, 0, 10 ^ 12, 0, 1, 1, 1, 0, 10 ^ 12, 1, 0,
    [0, 0, 0, 0, 0, 0, 0, 0, 0, 0, 0, 0], 0, 0, 0, 0, 2⟩

/-- The rate the IRR search converges to on c5In (after one Newton step). -/
def c5G : ℚ := 3210000000014641 / 32100000000000000

/-- An input violating the stated preconditions: monthly_peaks_kw has
length 0 instead of 12, dod = 2 lies outside [0,1], years = 0. -/
def c6In : ROIInputs :=
  ⟨50, 0, 0, 0, 0, 2, 0, 0, 0, 0, 0, 0, [], 0, 0, 0, 0, 0⟩

/-- An input whose annual net benefit is negative (O&M 100, no savings). -/
def negNetIn : ROIInputs :=
  ⟨0, 0, 0, 0, 0, 0, 0, 0, 0, 0, 0, 0, [0, 0, 0, 0, 0, 0, 0, 0, 0, 0, 0, 0], 0, 100, 0, 0, 1⟩

/-- An input whose annual net benefit is exactly zero while the net
investment is 100, so every cf of the IRR search is zero and the derivative
evaluates to exactly zero. -/
def c4wIn : ROIInputs :=
  ⟨100, 0, 0, 0, 0, 0, 0, 0, 0, 0, 0, 0, [0, 0, 0, 0, 0, 0, 0, 0, 0, 0, 0, 0], 0, 0, 0, 0, 2⟩

/-- A valid base input with zero capex: capacity and inverter positive,
twelve monthly peaks, one year horizon. -/
def c9zeroCapexIn : ROIInputs :=
  ⟨0, 0, 0, 1, 1, 1, 1, 0, 0, 0, 0, 0, [0, 0, 0, 0, 0, 0, 0, 0, 0, 0, 0, 0], 0, 0, 1 / 20, 0, 1⟩

/-- The same shape of input with a positive capex of 100. -/
def c9wBase : ROIInputs :=
  ⟨100, 0, 0, 1, 1, 1, 1, 0, 0, 0, 0, 0, [0, 0, 0, 0, 0, 0, 0, 0, 0, 0, 0, 0], 0, 0, 1 / 20, 0, 1⟩

/-- A decimal.js value that is not a finite number. -/
def EDec.NonFin (x : EDec) : Prop := x = EDec.inf ∨ x = EDec.ninf ∨ x = EDec.nan

lemma EDec.nan_add (x : EDec) : EDec.nan.add x = EDec.nan := by cases x <;> rfl

lemma EDec.add_nan (x : EDec) : x.add EDec.nan = EDec.nan := by cases x <;> rfl

lemma EDec.nan_sub (x : EDec) : EDec.nan.sub x = EDec.nan := by cases x <;> rfl

lemma EDec.sub_nan (x : EDec) : x.sub EDec.nan = EDec.nan := by cases x <;> rfl

lemma EDec.nan_mul (x : EDec) : EDec.nan.mul x = EDec.nan := by cases x <;> rfl

lemma EDec.mul_nan (x : EDec) : x.mul EDec.nan = EDec.nan := by cases x <;> rfl

lemma EDec.nan_div (x : EDec) : EDec.nan.div x = EDec.nan := by cases x <;> rfl

lemma EDec.div_nan (x : EDec) : x.div EDec.nan = EDec.nan := by cases x <;> rfl

lemma EDec.nan_leB (x : EDec) : EDec.nan.leB x = false := by cases x <;> rfl

lemma EDec.pow_num_succ (q : ℚ) (n : ℕ) :
    (EDec.num q).pow ((n : ℤ) + 1) = EDec.num (q ^ (n + 1)) := by
  have h0 : ((n : ℤ) + 1) ≠ 0 := by omega
  have h1 : (0 : ℤ) < (n : ℤ) + 1 := by omega
  have h2 : ((n : ℤ) + 1).toNat = n + 1 := by omega
  simp [EDec.pow, h0, h1, h2]

lemma EDec.pow_inf_succ (n : ℕ) : EDec.inf.pow ((n : ℤ) + 1) = EDec.inf := by
  have h0 : ((n : ℤ) + 1) ≠ 0 := by omega
  have h1 : (0 : ℤ) < (n : ℤ) + 1 := by omega
  simp [EDec.pow, h0, h1]

lemma EDec.pow_ninf_succ (n : ℕ) :
    EDec.ninf.pow ((n : ℤ) + 1) = EDec.inf ∨ EDec.ninf.pow ((n : ℤ) + 1) = EDec.ninf := by
  have h0 : ((n : ℤ) + 1) ≠ 0 := by omega
  have h1 : (0 : ℤ) < (n : ℤ) + 1 := by omega
  by_cases he : ((n : ℤ) + 1) % 2 = 0
  · left
    simp [EDec.pow, h0, h1, he]
  · right
    simp [EDec.pow, h0, h1, he]

lemma EDec.pow_nan_succ (n : ℕ) : EDec.nan.pow ((n : ℤ) + 1) = EDec.nan := by
  have h0 : ((n : ℤ) + 1) ≠ 0 := by omega
  have h1 : (0 : ℤ) < (n : ℤ) + 1 := by omega
  simp [EDec.pow, h0, h1]

lemma EDec.pow_num_one (q : ℚ) : (EDec.num q).pow 1 = EDec.num q := by
  have h : (EDec.num q).pow 1 = EDec.num (q ^ 1) := rfl
  rw [h, pow_one]

lemma EDec.pow_inf_one : EDec.inf.pow 1 = EDec.inf := rfl

lemma EDec.pow_ninf_one : EDec.ninf.pow 1 = EDec.ninf := rfl

lemma EDec.pow_nan_one : EDec.nan.pow 1 = EDec.nan := rfl

lemma EDec.pow_num_two (q : ℚ) : (EDec.num q).pow 2 = EDec.num (q ^ 2) := rfl

lemma EDec.pow_inf_two : EDec.inf.pow 2 = EDec.inf := rfl

lemma EDec.pow_ninf_two : EDec.ninf.pow 2 = EDec.inf := rfl

lemma EDec.pow_nan_two : EDec.nan.pow 2 = EDec.nan := rfl

lemma EDec.div_num_pm_inf (a : ℚ) (x : EDec) (h : x = EDec.inf ∨ x = EDec.ninf) :
    (EDec.num a).div x = EDec.num 0 := by
  rcases h with h | h <;> subst h <;> rfl

lemma EDec.nonFin_div_zero (x : EDec) : (x.div (EDec.num 0)).NonFin := by
  cases x with
  | num a =>
      by_cases h : a = 0
      · simp [EDec.div, h, EDec.NonFin]
      · by_cases h2 : 0 < a
        · simp [EDec.div, h, h2, EDec.NonFin]
        · simp [EDec.div, h, h2, EDec.NonFin]
  | inf => simp [EDec.div, EDec.NonFin]
  | ninf => simp [EDec.div, EDec.NonFin]
  | nan => simp [EDec.div, EDec.NonFin]

lemma EDec.nonFin_sub_right (g y : EDec) (h : y.NonFin) : (g.sub y).NonFin := by
  rcases h with h | h | h <;> subst h <;> cases g <;> simp [EDec.sub, EDec.NonFin]

lemma EDec.nonFin_sub_left (y g : EDec) (h : y.NonFin) : (y.sub g).NonFin := by
  rcases h with h | h | h <;> subst h <;> cases g <;> simp [EDec.sub, EDec.NonFin]

lemma EDec.abs_ltB_of_nonFin (d : EDec) (h : d.NonFin) (c : ℚ) :
    (d.abs.ltB (EDec.num c)) = false := by
  rcases h with h | h | h <;> subst h <;> rfl

lemma EDec.maxD_num (a b : ℚ) : EDec.maxD (EDec.num a) (EDec.num b) = EDec.num (max a b) := by
  rcases le_or_lt b a with h | h
  · have hlt : EDec.ltB (EDec.num a) (EDec.num b) = false := by
      simp [EDec.ltB, not_lt.mpr h]
    simp [EDec.maxD, hlt, max_eq_left h]
  · have hlt : EDec.ltB (EDec.num a) (EDec.num b) = true := by
      simp [EDec.ltB, h]
    simp [EDec.maxD, hlt, max_eq_right (le_of_lt h)]

lemma conv_check_false (g1 g : EDec) (h : g1.NonFin) :
    ((g1.sub g).abs.ltB (EDec.num (1 / 1000000))) = false :=
  EDec.abs_ltB_of_nonFin _ (EDec.nonFin_sub_left _ _ h) _

lemma irrInner_inf (an dg ninv : ℚ) (years : ℕ) :
    irrInner an dg ninv years EDec.inf = (EDec.num (-ninv), EDec.num 0) := by
  induction years with
  | zero => rfl
  | succ n ih =>
      unfold irrInner at ih ⊢
      rw [List.range_succ, List.foldl_append, ih]
      simp [EDec.add, EDec.div, EDec.mul, EDec.sub, EDec.pow_inf_succ, EDec.pow_inf_two,
        EDec.pow_inf_one]

lemma irrInner_ninf (an dg ninv : ℚ) (years : ℕ) :
    irrInner an dg ninv years EDec.ninf = (EDec.num (-ninv), EDec.num 0) := by
  induction years with
  | zero => rfl
  | succ n ih =>
      unfold irrInner at ih ⊢
      rw [List.range_succ, List.foldl_append, ih]
      rcases EDec.pow_ninf_succ n with h | h <;>
        simp [EDec.add, EDec.div, EDec.mul, EDec.sub, h, EDec.pow_inf_two, EDec.pow_ninf_two]

lemma irrInner_nan (an dg ninv : ℚ) (years : ℕ) (h : years ≠ 0) :
    irrInner an dg ninv years EDec.nan = (EDec.nan, EDec.nan) := by
  induction years with
  | zero => exact absurd rfl h
  | succ n ih =>
      unfold irrInner at ih ⊢
      rw [List.range_succ, List.foldl_append]
      by_cases hn : n = 0
      · subst hn
        simp [EDec.add, EDec.div, EDec.mul, EDec.sub, EDec.pow_nan_one, EDec.pow_nan_two,
          EDec.add_nan, EDec.sub_nan, EDec.div_nan, EDec.nan_mul, EDec.mul_nan, EDec.nan_div]
      · rw [ih hn]
        simp [EDec.add, EDec.div, EDec.mul, EDec.sub, EDec.pow_nan_succ, EDec.nan_add,
          EDec.add_nan, EDec.nan_sub, EDec.sub_nan, EDec.div_nan, EDec.nan_mul, EDec.mul_nan,
          EDec.nan_div, EDec.pow_nan_two]

lemma irrStep_nonFin (an dg ninv : ℚ) (years : ℕ) (g : EDec) (h : g.NonFin) :
    (irrStep an dg ninv years g).NonFin := by
  rcases h with h | h | h <;> subst h
  · unfold irrStep irrNpvGuess irrDeriv
    rw [irrInner_inf]
    exact EDec.nonFin_sub_right _ _ (EDec.nonFin_div_zero _)
  · unfold irrStep irrNpvGuess irrDeriv
    rw [irrInner_ninf]
    exact EDec.nonFin_sub_right _ _ (EDec.nonFin_div_zero _)
  · by_cases hy : years = 0
    · subst hy
      unfold irrStep irrNpvGuess irrDeriv
      have h0 : irrInner an dg ninv 0 EDec.nan = (EDec.num (-ninv), EDec.num 0) := rfl
      rw [h0]
      exact EDec.nonFin_sub_right _ _ (EDec.nonFin_div_zero _)
    · unfold irrStep irrNpvGuess irrDeriv
      rw [irrInner_nan an dg ninv years hy]
      simp [EDec.nan_div, EDec.sub_nan, EDec.NonFin]

lemma irrLoop_nonFin (an dg ninv : ℚ) (years : ℕ) :
    ∀ (fuel : ℕ) (g : EDec), g.NonFin → irrLoop an dg ninv years fuel g = none := by
  intro fuel
  induction fuel with
  | zero => intro g _; rfl
  | succ n ih =>
      intro g hg
      have h1 := irrStep_nonFin an dg ninv years g hg
      simp only [irrLoop]
      rw [conv_check_false _ _ h1]
      simp only [Bool.false_eq_true, if_false]
      exact ih _ h1

lemma irrLoop_some (an dg ninv : ℚ) (years : ℕ) :
    ∀ (fuel : ℕ) (g v : EDec), irrLoop an dg ninv years fuel g = some v →
      ∃ g0 : EDec, v = irrStep an dg ninv years g0 ∧
        ((v.sub g0).abs.ltB (EDec.num (1 / 1000000))) = true := by
  intro fuel
  induction fuel with
  | zero => intro g v h; exact absurd h (by simp [irrLoop])
  | succ n ih =>
      intro g v h
      simp only [irrLoop] at h
      by_cases hc : (((irrStep an dg ninv years g).sub g).abs.ltB (EDec.num (1 / 1000000))) = true
      · rw [if_pos hc] at h
        injection h with h
        subst h
        exact ⟨g, rfl, hc⟩
      · rw [if_neg hc] at h
        exact ih _ _ h

lemma irr_some (i : ROIInputs) (v : EDec) (h : irr i = some v) :
    irrRaw i = some v ∧ (v.gtB (EDec.num (-1)) && v.ltB (EDec.num 10)) = true := by
  unfold irr at h
  cases hr : irrRaw i with
  | none => rw [hr] at h; cases h
  | some w =>
      rw [hr] at h
      by_cases hb : (w.gtB (EDec.num (-1)) && w.ltB (EDec.num 10)) = true
      · simp only [hb, if_true] at h
        injection h with h
        subst h
        exact ⟨rfl, hb⟩
      · simp only [hb, if_false] at h
        cases h

lemma band_finite (v : EDec) (h : (v.gtB (EDec.num (-1)) && v.ltB (EDec.num 10)) = true) :
    ∃ q : ℚ, v = EDec.num q := by
  cases v with
  | num q => exact ⟨q, rfl⟩
  | inf => simp [EDec.gtB, EDec.ltB] at h
  | ninf => simp [EDec.gtB, EDec.ltB] at h
  | nan => simp [EDec.gtB, EDec.ltB] at h

lemma foldl_add_map (f : ℚ → ℚ) :
    ∀ (l : List ℚ) (a : ℚ), l.foldl (fun acc p => acc + f p) a = a + (l.map f).sum := by
  intro l
  induction l with
  | nil => intro a; simp
  | cons p t ih =>
      intro a
      simp only [List.foldl_cons, List.map_cons, List.sum_cons, ih]
      ring

lemma demand_savings_eq_sum (i : ROIInputs) :
    demand_savings i = (i.monthly_peaks_kw.map
      (fun p => min p (cap_kw i) * i.demand_price_sek_per_kw_month)).sum := by
  unfold demand_savings
  rw [foldl_add_map (fun p => min p (cap_kw i) * i.demand_price_sek_per_kw_month)]
  rw [zero_add]

/-- C1 (counterexample): on the reference inputs the engine does not return
the figures the claim lists.  Usable energy is 261 x 0.9 x 0.92 = 216.108
(the claimed 216.252 is an arithmetic slip), so arbitrage_savings is
5186.592 rather than the claimed 5190.048, annual_net_sek is 163699.152
rather than 163702.608, and payback is not 442400 / 163702.608. -/
theorem c1_counterexample :
    (calculateBatteryROI refInputs).details.arbitrage_savings ≠ 5190048 / 1000 ∧
      (calculateBatteryROI refInputs).annual_net_sek ≠ 163702608 / 1000 ∧
      (calculateBatteryROI refInputs).payback ≠ some (442400 / (163702608 / 1000)) := by
  have hpb : (calculateBatteryROI refInputs).payback = some (442400 / (163699152 / 1000)) := by
    norm_num [calculateBatteryROI, payback, annual_net, pv_savings, pv_energy_capped,
      pv_energy_per_year, usable, demand_savings, cap_kw, arbitrage_savings, net_investment,
      refInputs, min_def, List.foldl]
  refine ⟨?_, ?_, ?_⟩
  · norm_num [calculateBatteryROI, arbitrage_savings, usable, refInputs]
  · norm_num [calculateBatteryROI, annual_net, pv_savings, pv_energy_capped,
      pv_energy_per_year, usable, demand_savings, cap_kw, arbitrage_savings, refInputs,
      min_def, List.foldl]
  · rw [hpb]
    simp only [ne_eq, Option.some.injEq]
    norm_num

/-- C1 (amended): on the reference inputs the engine returns exactly
pv_savings = 60412.56, demand_savings = 103320, arbitrage_savings =
5186.592, annual_net_sek = 163699.152, net_investment = 442400 and a
non-sentinel payback equal to 442400 / 163699.152 (about 2.7025 years). -/
theorem c1_amended_scenario :
    (calculateBatteryROI refInputs).details.pv_savings = 6041256 / 100 ∧
      (calculateBatteryROI refInputs).details.demand_savings = 103320 ∧
      (calculateBatteryROI refInputs).details.arbitrage_savings = 5186592 / 1000 ∧
      (calculateBatteryROI refInputs).annual_net_sek = 163699152 / 1000 ∧
      (calculateBatteryROI refInputs).details.net_investment = 442400 ∧
      (calculateBatteryROI refInputs).payback = some (442400 / (163699152 / 1000)) := by
  refine ⟨?_, ?_, ?_, ?_, ?_, ?_⟩ <;>
    norm_num [calculateBatteryROI, payback, annual_net, pv_savings, pv_energy_capped,
      pv_energy_per_year, usable, demand_savings, cap_kw, arbitrage_savings, net_investment,
      refInputs, min_def, List.foldl]

/-- C2: for every input, the returned breakdown satisfies
pv_savings + demand_savings + arbitrage_savings - o_and_m = annual_net_sek
exactly. -/
theorem c2_breakdown_sum (i : ROIInputs) :
    (calculateBatteryROI i).details.pv_savings + (calculateBatteryROI i).details.demand_savings +
        (calculateBatteryROI i).details.arbitrage_savings -
        (calculateBatteryROI i).details.o_and_m =
      (calculateBatteryROI i).annual_net_sek := rfl

/-- C3: the returned payback equals net_investment / annual_net exactly when
annual_net is positive, and is the null sentinel whenever annual_net is not
positive; the embedded function is total, so no exception is raised for
this outcome. -/
theorem c3_payback_iff (i : ROIInputs) :
    ((calculateBatteryROI i).payback =
        some ((calculateBatteryROI i).details.net_investment /
          (calculateBatteryROI i).annual_net_sek) ↔
      0 < (calculateBatteryROI i).annual_net_sek) ∧
      ((calculateBatteryROI i).annual_net_sek ≤ 0 → (calculateBatteryROI i).payback = none) := by
  have epb : (calculateBatteryROI i).payback = payback i := rfl
  have ean : (calculateBatteryROI i).annual_net_sek = annual_net i := rfl
  have eni : (calculateBatteryROI i).details.net_investment = net_investment i := rfl
  rw [epb, ean, eni]
  constructor
  · constructor
    · intro h
      by_contra hn
      unfold payback at h
      rw [if_neg hn] at h
      cases h
    · intro h
      unfold payback
      rw [if_pos h]
  · intro h
    unfold payback
    rw [if_neg (not_lt.mpr h)]

/-- C3 witness: at the concrete input negNetIn the annual net is -100, and
the theorem yields the null payback sentinel. -/
theorem c3_payback_witness : (calculateBatteryROI negNetIn).payback = none :=
  (c3_payback_iff negNetIn).2
    (by norm_num [calculateBatteryROI, annual_net, pv_savings, pv_energy_capped,
      pv_energy_per_year, usable, demand_savings, cap_kw, arbitrage_savings, negNetIn,
      min_def, List.foldl])

/-- C6 (counterexample): calculateBatteryROI performs no precondition
validation.  On c6In, whose monthly_peaks_kw has length 0 instead of 12,
whose dod = 2 lies outside [0,1] and whose years is 0, the function does
not fail fast: it computes and returns a complete ROIOutputs record. -/
theorem c6_counterexample :
    c6In.monthly_peaks_kw.length ≠ 12 ∧ c6In.years = 0 ∧ ¬(0 ≤ c6In.dod ∧ c6In.dod ≤ 1) ∧
      (calculateBatteryROI c6In).details.demand_savings = 0 ∧
      (calculateBatteryROI c6In).annual_net_sek = 0 ∧
      (calculateBatteryROI c6In).details.net_investment = 50 := by
  refine ⟨by decide, rfl, by norm_num [c6In], ?_, ?_, ?_⟩ <;>
    norm_num [calculateBatteryROI, demand_savings, annual_net, pv_savings, pv_energy_capped,
      pv_energy_per_year, usable, cap_kw, arbitrage_savings, net_investment, c6In,
      List.foldl, min_def]

/-- C6 (amended): calculateBatteryROI never fails fast: even on an input
violating the stated preconditions (peak list length different from 12, or
a non-positive years horizon) it performs the computation and the caller
receives a fully computed ROIOutputs, with the breakdown identity holding
and demand savings summing over however many peak entries are present. -/
theorem c6_amended_no_validation (i : ROIInputs)
    (h : i.monthly_peaks_kw.length ≠ 12 ∨ i.years = 0) :
    (calculateBatteryROI i).annual_net_sek =
        (calculateBatteryROI i).details.pv_savings +
          (calculateBatteryROI i).details.demand_savings +
          (calculateBatteryROI i).details.arbitrage_savings -
          (calculateBatteryROI i).details.o_and_m ∧
      (calculateBatteryROI i).details.net_investment = i.capex_cogs * (1 - i.grant_pct) ∧
      (calculateBatteryROI i).details.demand_savings =
        (i.monthly_peaks_kw.map
          (fun p => min p (cap_kw i) * i.demand_price_sek_per_kw_month)).sum :=
  ⟨rfl, rfl, demand_savings_eq_sum i⟩

/-- C6 witness: the amended theorem applied to the invalid input c6In. -/
theorem c6_amended_witness :
    (calculateBatteryROI c6In).annual_net_sek =
        (calculateBatteryROI c6In).details.pv_savings +
          (calculateBatteryROI c6In).details.demand_savings +
          (calculateBatteryROI c6In).details.arbitrage_savings -
          (calculateBatteryROI c6In).details.o_and_m ∧
      (calculateBatteryROI c6In).details.net_investment = c6In.capex_cogs * (1 - c6In.grant_pct) ∧
      (calculateBatteryROI c6In).details.demand_savings =
        (c6In.monthly_peaks_kw.map
          (fun p => min p (cap_kw c6In) * c6In.demand_price_sek_per_kw_month)).sum :=
  c6_amended_no_validation c6In (Or.inl (by decide))

/-- C8: with twelve monthly peaks and non-negative inverter power and
demand price, demand savings never exceeds
12 x 0.6 x inverter_kw x demand_price_sek_per_kw_month, however large the
individual peaks are. -/
theorem c8_demand_cap (i : ROIInputs) (h12 : i.monthly_peaks_kw.length = 12)
    (hinv : 0 ≤ i.inverter_kw) (hpr : 0 ≤ i.demand_price_sek_per_kw_month) :
    (calculateBatteryROI i).details.demand_savings ≤
      12 * (6 / 10) * i.inverter_kw * i.demand_price_sek_per_kw_month := by
  have eds : (calculateBatteryROI i).details.demand_savings = demand_savings i := rfl
  rw [eds, demand_savings_eq_sum]
  have hb : ∀ x ∈ i.monthly_peaks_kw.map
      (fun p => min p (cap_kw i) * i.demand_price_sek_per_kw_month),
      x ≤ cap_kw i * i.demand_price_sek_per_kw_month := by
    intro x hx
    obtain ⟨p, hp, rfl⟩ := List.mem_map.mp hx
    exact mul_le_mul_of_nonneg_right (min_le_right _ _) hpr
  have hs := List.sum_le_card_nsmul _ _ hb
  rw [List.length_map, h12, nsmul_eq_mul] at hs
  push_cast at hs
  refine le_trans hs (le_of_eq ?_)
  unfold cap_kw
  ring

/-- C8 witness: the bound applied to the reference inputs. -/
theorem c8_demand_cap_witness :
    (calculateBatteryROI refInputs).details.demand_savings ≤
      12 * (6 / 10) * refInputs.inverter_kw * refInputs.demand_price_sek_per_kw_month :=
  c8_demand_cap refInputs (by decide) (by norm_num [refInputs]) (by norm_num [refInputs])

/-- C9 (counterexample): with capex_cogs = 0 the claim fails: raising the
grant share from 0 to 1 (both within [0,1], on otherwise valid inputs with
positive capacity, inverter and years) leaves net_investment unchanged at
0, not strictly smaller. -/
theorem c9_counterexample :
    ({ c9zeroCapexIn with grant_pct := 0 } : ROIInputs).grant_pct <
        ({ c9zeroCapexIn with grant_pct := 1 } : ROIInputs).grant_pct ∧
      (calculateBatteryROI { c9zeroCapexIn with grant_pct := 0 }).details.net_investment = 0 ∧
      (calculateBatteryROI { c9zeroCapexIn with grant_pct := 1 }).details.net_investment = 0 ∧
      ¬((calculateBatteryROI { c9zeroCapexIn with grant_pct := 1 }).details.net_investment <
        (calculateBatteryROI { c9zeroCapexIn with grant_pct := 0 }).details.net_investment) := by
  refine ⟨by norm_num [c9zeroCapexIn], ?_, ?_, ?_⟩ <;>
    norm_num [calculateBatteryROI, net_investment, c9zeroCapexIn]

/-- C9 (amended): for a strictly positive capex_cogs, increasing grant_pct
within [0,1] and holding everything else fixed strictly decreases
net_investment, and when both calls return a non-sentinel payback the
second payback does not exceed the first.  (With capex_cogs = 0 both net
investments are 0 and the strict decrease fails, as the counterexample
shows.) -/
theorem c9_amended_monotonic (b : ROIInputs) (g1 g2 : ℚ) (hg0 : 0 ≤ g1) (hg12 : g1 < g2)
    (hg1 : g2 ≤ 1) (hc : 0 < b.capex_cogs) :
    (calculateBatteryROI { b with grant_pct := g2 }).details.net_investment <
        (calculateBatteryROI { b with grant_pct := g1 }).details.net_investment ∧
      ∀ p1 p2 : ℚ, (calculateBatteryROI { b with grant_pct := g1 }).payback = some p1 →
        (calculateBatteryROI { b with grant_pct := g2 }).payback = some p2 → p2 ≤ p1 := by
  have hni : ∀ g : ℚ, (calculateBatteryROI { b with grant_pct := g }).details.net_investment =
      b.capex_cogs * (1 - g) := fun g => rfl
  have hlt : b.capex_cogs * (1 - g2) < b.capex_cogs * (1 - g1) :=
    mul_lt_mul_of_pos_left (by linarith) hc
  refine ⟨by rw [hni, hni]; exact hlt, ?_⟩
  intro p1 p2 hp1 hp2
  have han : ∀ g : ℚ, annual_net { b with grant_pct := g } = annual_net b := fun g => rfl
  have epb : ∀ g : ℚ, (calculateBatteryROI { b with grant_pct := g }).payback =
      payback { b with grant_pct := g } := fun g => rfl
  rw [epb] at hp1 hp2
  unfold payback at hp1 hp2
  rw [han] at hp1 hp2
  by_cases h : 0 < annual_net b
  · rw [if_pos h] at hp1 hp2
    injection hp1 with hp1
    injection hp2 with hp2
    have e1 : net_investment { b with grant_pct := g1 } = b.capex_cogs * (1 - g1) := rfl
    have e2 : net_investment { b with grant_pct := g2 } = b.capex_cogs * (1 - g2) := rfl
    rw [e1] at hp1
    rw [e2] at hp2
    rw [← hp1, ← hp2, div_le_div_iff h h]
    exact mul_le_mul_of_nonneg_right (le_of_lt hlt) (le_of_lt h)
  · rw [if_neg h] at hp1
    cases hp1

/-- C9 witness: the amended monotonicity applied at capex 100 with grants
1/4 and 1/2. -/
theorem c9_amended_witness :
    (calculateBatteryROI { c9wBase with grant_pct := 1 / 2 }).details.net_investment <
      (calculateBatteryROI { c9wBase with grant_pct := 1 / 4 }).details.net_investment :=
  (c9_amended_monotonic c9wBase (1 / 4) (1 / 2) (by norm_num) (by norm_num) (by norm_num)
    (by norm_num [c9wBase])).1

/-- C7: the sanity check passes exactly when the actual annual net is
within max(5000, 0.10 x expected annual net) of the recomputed annual net
and the actual payback is within 0.25 of the recomputed payback; a null
expected payback becomes NaN, so the payback comparison fails for every
numeric actual payback and pass is false. -/
theorem c7_sanity_pass_iff (i : ROIInputs) (qn qp : ℚ) :
    (runSanityCheck i (EDec.num qn) (EDec.num qp)).pass = true ↔
      (|qn - (calculateBatteryROI i).annual_net_sek| ≤
          max 5000 ((calculateBatteryROI i).annual_net_sek * (1 / 10)) ∧
        (match (calculateBatteryROI i).payback with
          | some p => |qp - p| ≤ 1 / 4
          | none => False)) := by
  cases hpb : (calculateBatteryROI i).payback with
  | none =>
      simp only [runSanityCheck, hpb]
      simp [EDec.sub, EDec.abs, EDec.leB, EDec.mul, EDec.maxD_num, EDec.sub_nan, EDec.nan_leB]
  | some p =>
      simp only [runSanityCheck, hpb]
      simp [EDec.sub, EDec.abs, EDec.leB, EDec.mul, EDec.maxD_num, Bool.and_eq_true,
        decide_eq_true_eq]

/-- C10: when the recomputed annual net benefit is not positive the
expected payback is the null sentinel, which the sanity check converts to
NaN: pass is false for every actual payback, NaN included, and the
returned deltas.payback is NaN. -/
theorem c10_unattainable_fails (i : ROIInputs) (aN aP : EDec)
    (h : (calculateBatteryROI i).annual_net_sek ≤ 0) :
    (runSanityCheck i aN aP).pass = false ∧
      (runSanityCheck i aN aP).deltas.payback = EDec.nan := by
  have h2 : annual_net i ≤ 0 := h
  have hpb : (calculateBatteryROI i).payback = none := by
    have e : (calculateBatteryROI i).payback = payback i := rfl
    rw [e]
    unfold payback
    rw [if_neg (not_lt.mpr h2)]
  constructor
  · simp only [runSanityCheck, hpb]
    simp [EDec.sub_nan, EDec.abs, EDec.nan_leB]
  · simp only [runSanityCheck, hpb]
    simp [EDec.sub_nan, EDec.abs]

/-- C10 witness: at negNetIn (annual net -100) the check fails even when
the actual payback supplied is NaN itself, and deltas.payback is NaN. -/
theorem c10_unattainable_witness :
    (runSanityCheck negNetIn (EDec.num 0) EDec.nan).pass = false ∧
      (runSanityCheck negNetIn (EDec.num 0) EDec.nan).deltas.payback = EDec.nan :=
  c10_unattainable_fails negNetIn (EDec.num 0) EDec.nan
    (by norm_num [calculateBatteryROI, annual_net, pv_savings, pv_energy_capped,
      pv_energy_per_year, usable, demand_savings, cap_kw, arbitrage_savings, negNetIn,
      min_def, List.foldl])

/-- C4: the engine returns the null irr sentinel whenever the 50-iteration
Newton search seeded at 0.1 exhausts its fuel without meeting the 1e-6
convergence test, whenever the converged value fails the (-1, 10) band
check, and whenever the derivative evaluates to exactly zero at any state
of the search (the division by zero then yields a non-finite guess from
which the loop can never converge); moreover any non-sentinel irr is a
finite number, so no NaN or infinity ever propagates into the result. -/
theorem c4_irr_sentinel (i : ROIInputs) :
    (irrRaw i = none → (calculateBatteryROI i).irr = none) ∧
      (∀ v : EDec, irrRaw i = some v →
        ¬((v.gtB (EDec.num (-1)) && v.ltB (EDec.num 10)) = true) →
        (calculateBatteryROI i).irr = none) ∧
      (∀ (g : EDec) (fuel : ℕ),
        irrDeriv (annual_net i) i.degradation (net_investment i) i.years g = EDec.num 0 →
        irrLoop (annual_net i) i.degradation (net_investment i) i.years fuel g = none) ∧
      (∀ v : EDec, (calculateBatteryROI i).irr = some v → ∃ q : ℚ, v = EDec.num q) := by
  have eirr : (calculateBatteryROI i).irr = irr i := rfl
  rw [eirr]
  refine ⟨?_, ?_, ?_, ?_⟩
  · intro h
    unfold irr
    rw [h]
  · intro v hv hband
    unfold irr
    rw [hv]
    show (if (v.gtB (EDec.num (-1)) && v.ltB (EDec.num 10)) = true then some v else none) = none
    rw [if_neg hband]
  · intro g fuel hder
    cases fuel with
    | zero => rfl
    | succ n =>
        have hst : (irrStep (annual_net i) i.degradation (net_investment i) i.years g).NonFin := by
          unfold irrStep
          rw [hder]
          exact EDec.nonFin_sub_right _ _ (EDec.nonFin_div_zero _)
        simp only [irrLoop]
        rw [conv_check_false _ _ hst]
        simp only [Bool.false_eq_true, if_false]
        exact irrLoop_nonFin _ _ _ _ _ _ hst
  · intro v hv
    exact band_finite v ((irr_some i v hv).2)

/-- C4 witness: at c4wIn the annual net is 0, so every cash flow of the
search is 0 and the derivative at the seed 0.1 is exactly zero; the
theorem then gives the exhausted loop, hence the null sentinel. -/
theorem c4_irr_sentinel_witness :
    irrLoop (annual_net c4wIn) c4wIn.degradation (net_investment c4wIn) c4wIn.years 50
      (EDec.num (1 / 10)) = none :=
  (c4_irr_sentinel c4wIn).2.2.1 (EDec.num (1 / 10)) 50 (by
    have hy : c4wIn.years = 2 := rfl
    have han : annual_net c4wIn = 0 := by
      norm_num [annual_net, pv_savings, pv_energy_capped, pv_energy_per_year, usable,
        demand_savings, cap_kw, arbitrage_savings, c4wIn, min_def, List.foldl]
    unfold irrDeriv irrInner
    rw [hy, han, show List.range 2 = [0, 1] from by decide]
    norm_num [List.foldl, irrCf, EDec.add, EDec.div, EDec.mul, EDec.sub, EDec.pow_num_one,
      EDec.pow_num_two])

/-- On c5In the Newton search converges at its first iteration to the rate
c5G, which passes the band check, so the engine returns it as irr. -/
lemma c5_irr_eval : (calculateBatteryROI c5In).irr = some (EDec.num c5G) := by
  have hr : List.range 2 = [0, 1] := by decide
  have han : annual_net c5In = 10 ^ 12 := by
    norm_num [annual_net, pv_savings, pv_energy_capped, pv_energy_per_year,
      usable, demand_savings, cap_kw, arbitrage_savings, c5In, min_def, List.foldl]
  have hni : net_investment c5In = (210 * 10 ^ 12 - 121) / 121 := by
    norm_num [net_investment, c5In]
  have hstep : irrStep (10 ^ 12) 0 ((210 * 10 ^ 12 - 121) / 121) 2 (EDec.num (1 / 10)) =
      EDec.num c5G := by
    unfold irrStep irrNpvGuess irrDeriv irrInner
    rw [hr]
    norm_num [List.foldl, EDec.add, EDec.div, EDec.mul, EDec.sub, irrCf, c5G,
      EDec.pow_num_one, EDec.pow_num_two]
  have hcheck : (((EDec.num c5G).sub (EDec.num (1 / 10))).abs.ltB (EDec.num (1 / 1000000)))
      = true := by
    have hd : (c5G - 1 / 10 : ℚ) = 14641 / 32100000000000000 := by norm_num [c5G]
    simp only [EDec.sub, EDec.abs, EDec.ltB, hd, decide_eq_true_eq]
    rw [abs_of_pos (by norm_num)]
    norm_num
  have hloop : irrLoop (10 ^ 12) 0 ((210 * 10 ^ 12 - 121) / 121) 2 50 (EDec.num (1 / 10)) =
      some (EDec.num c5G) := by
    rw [show (50 : ℕ) = 49 + 1 from rfl]
    simp only [irrLoop, hstep, hcheck, if_true]
  have hraw : irrRaw c5In = some (EDec.num c5G) := by
    unfold irrRaw
    rw [han, hni, show c5In.degradation = 0 from rfl, show c5In.years = 2 from rfl, hloop]
  show irr c5In = some (EDec.num c5G)
  unfold irr
  rw [hraw]
  norm_num [EDec.gtB, EDec.ltB, c5G]

/-- C5 (counterexample): on c5In the engine returns the non-sentinel irr
c5G (about 0.1 + 4.6e-13), yet substituting it back into the NPV formula
leaves a residual of about -0.0623 SEK, far outside the claimed 1e-4
bound: the convergence test bounds the size of the last Newton step, not
the NPV residual. -/
theorem c5_counterexample :
    (calculateBatteryROI c5In).irr = some (EDec.num c5G) ∧ 1 / 10000 < |npvAt c5In c5G| := by
  refine ⟨c5_irr_eval, ?_⟩
  have hr : List.range 2 = [0, 1] := by decide
  have hv : npvAt c5In c5G =
      -(641999999994529589999998228439 / 10304100000008545020000001771561) := by
    unfold npvAt
    rw [show c5In.years = 2 from rfl, hr]
    norm_num [List.foldl, annual_net, pv_savings, pv_energy_capped, pv_energy_per_year,
      usable, demand_savings, cap_kw, arbitrage_savings, net_investment, c5In, min_def, c5G]
  rw [hv, abs_neg, abs_of_pos (by norm_num)]
  norm_num

/-- C5 (amended): what the code guarantees for a non-sentinel irr is weaker
than the claim: the returned value is a finite rate inside the open band
(-1, 10), and it is the result of a Newton update whose distance from the
previous guess is below 1e-6; no bound on the NPV residual at that rate is
guaranteed (the counterexample exhibits a residual above 1e-4). -/
theorem c5_amended_step_bound (i : ROIInputs) (v : EDec)
    (h : (calculateBatteryROI i).irr = some v) :
    (∃ q : ℚ, v = EDec.num q) ∧
      (v.gtB (EDec.num (-1)) && v.ltB (EDec.num 10)) = true ∧
      ∃ g : EDec, v = irrStep (annual_net i) i.degradation (net_investment i) i.years g ∧
        ((v.sub g).abs.ltB (EDec.num (1 / 1000000))) = true := by
  have h2 : irr i = some v := h
  obtain ⟨hraw, hband⟩ := irr_some i v h2
  obtain ⟨g0, hg0, hcheck⟩ := irrLoop_some (annual_net i) i.degradation (net_investment i)
    i.years 50 (EDec.num (1 / 10)) v hraw
  exact ⟨band_finite v hband, hband, g0, hg0, hcheck⟩

/-- C5 witness: the amended guarantee instantiated at c5In, whose irr is
the non-sentinel c5G. -/
theorem c5_amended_witness :
    (∃ q : ℚ, EDec.num c5G = EDec.num q) ∧
      ((EDec.num c5G).gtB (EDec.num (-1)) && (EDec.num c5G).ltB (EDec.num 10)) = true ∧
      ∃ g : EDec, EDec.num c5G =
          irrStep (annual_net c5In) c5In.degradation (net_investment c5In) c5In.years g ∧
        (((EDec.num c5G).sub g).abs.ltB (EDec.num (1 / 1000000))) = true :=
  c5_amended_step_bound c5In (EDec.num c5G) c5_irr_eval
